import Mathlib

/-!
Shallow embedding of the combat-resolution and character-progression engine of
the Superheroes_vs_Villanos repository: the `Personaje` model
(src/models/Personaje.js) and the fight handlers of
src/controllers/fightController.js (1v1 simulation, scripted team battles and
their continuation), together with theorems checking the specified behaviour.

Conventions: JavaScript numbers are modelled as `ℚ` where fractional values can
arise (health, shield, ultimate charge) and as `ℕ`/`ℤ` where the code only ever
stores integers (ids, level, experience, thresholds, round numbers).
`Math.round` is `jsRound` (round half toward +∞).  The process-wide random
source of the 1v1 loop is abstracted as an oracle `ℕ → Jugada` giving the move
drawn at each turn, and the unbounded `while` loops are given explicit fuel
(the 1v1 loop) or a fuel that provably dominates the loop bound (levelling).
The JavaScript field `dañoUltimate` is spelled `danoUltimate` below.
-/

attribute [local semireducible] Rat.add Rat.mul Rat.sub Rat.inv

/-- JavaScript `Math.round`: round half toward positive infinity. -/
def jsRound (x : ℚ) : ℤ := ⌊x + 1/2⌋

/-- A combatant, mirroring the fields assigned by the `Personaje` constructor
in src/models/Personaje.js. -/
structure Personaje where
  id : ℕ
  nombre : String
  ciudad : String
  tipo : String
  equipo : Option String
  nivel : ℕ
  experiencia : ℤ
  escudo : ℚ
  danoUltimate : ℚ
  umbralUltimate : ℤ
  ultimateDisponible : Bool
  vida : ℚ
deriving DecidableEq

/-- `new Personaje(id, nombre, ciudad, tipo, equipo)` with the constructor's
default progression values: nivel 1, experiencia 0, escudo 0, danoUltimate 0,
umbralUltimate 150, ultimateDisponible false, vida `100 + (nivel-1)*5 = 100`. -/
def personajeNuevo (id : ℕ) (nombre ciudad tipo : String) (equipo : Option String) : Personaje :=
  ⟨id, nombre, ciudad, tipo, equipo, 1, 0, 0, 0, 150, false, 100⟩

/-- `Personaje.subirNivel`: below level 10, increment the level, recompute
health and shield from the new level, and scale the ultimate threshold by 1.1
rounded (`Math.round(this.umbralUltimate * 1.1)`). -/
def subirNivel (p : Personaje) : Personaje :=
  if p.nivel < 10 then
    let nivel' := p.nivel + 1
    { p with nivel := nivel',
             vida := 100 + ((nivel' : ℚ) - 1) * 5,
             escudo := ((nivel' : ℚ) - 1) * 5,
             umbralUltimate := jsRound ((p.umbralUltimate : ℚ) * (11/10)) }
  else p

/-- The `while (totalExp >= 100 && this.nivel < 10)` loop of
`Personaje.ganarExperiencia`, run with explicit fuel.  Each iteration consumes
100 experience and raises the level by one, so `10 - nivel` iterations always
suffice (the guard `nivel < 10` fails once the fuel would run out). -/
def expLoopAux : ℕ → Personaje → ℤ → Personaje × ℤ
  | 0, p, t => (p, t)
  | n + 1, p, t =>
    if 100 ≤ t ∧ p.nivel < 10 then expLoopAux n (subirNivel p) (t - 100) else (p, t)

/-- `Personaje.ganarExperiencia(cantidad)`: at level ≥ 10 pin experience at
100; otherwise accumulate, level up once per full 100 while below level 10,
and keep the remainder (or 100 once level 10 was reached inside the loop). -/
def ganarExperiencia (p : Personaje) (cantidad : ℤ) : Personaje :=
  if 10 ≤ p.nivel then { p with experiencia := 100 }
  else
    let r := expLoopAux (10 - p.nivel) p (p.experiencia + cantidad)
    { r.1 with experiencia := if r.1.nivel < 10 then r.2 else 100 }

/-- `getAtaqueBasico()` = `5 + (nivel - 1) * 1`. -/
def getAtaqueBasico (p : Personaje) : ℚ := 5 + ((p.nivel : ℚ) - 1) * 1

/-- `getAtaqueEspecial()` = `30 + (nivel - 1) * 10`. -/
def getAtaqueEspecial (p : Personaje) : ℚ := 30 + ((p.nivel : ℚ) - 1) * 10

/-- `getAtaqueCritico(base)` = `Math.round(base * 1.5)`. -/
def getAtaqueCritico (_p : Personaje) (base : ℚ) : ℚ := (jsRound (base * (3/2)) : ℚ)

/-- `getAtaqueUltimate()` = `80 + (nivel - 1) * 10`. -/
def getAtaqueUltimate (p : Personaje) : ℚ := 80 + ((p.nivel : ℚ) - 1) * 10

/-- The shield mitigation computed inside `recibirDanio`: unless the hit is an
ultimate, a positive shield removes `danio * escudo/100` from the damage. -/
def danioEfectivo (p : Personaje) (danio : ℚ) (esUltimate : Bool) : ℚ :=
  if esUltimate = false ∧ 0 < p.escudo then danio - danio * (p.escudo / 100) else danio

/-- `Personaje.recibirDanio(danio, esUltimate)`: apply shield mitigation (for
non-ultimate hits with a positive shield), subtract from health and clamp the
result at 0. -/
def recibirDanio (p : Personaje) (danio : ℚ) (esUltimate : Bool) : Personaje :=
  let v := p.vida - danioEfectivo p danio esUltimate
  { p with vida := if v < 0 then 0 else v }

/-- `Personaje.cargarUltimate(danio)`: a no-op once at level ≥ 10 with the
charge already at the threshold; otherwise accumulate the damage dealt and set
`ultimateDisponible` once the charge reaches the threshold. -/
def cargarUltimate (p : Personaje) (danio : ℚ) : Personaje :=
  if 10 ≤ p.nivel ∧ (p.umbralUltimate : ℚ) ≤ p.danoUltimate then p
  else
    let d := p.danoUltimate + danio
    { p with danoUltimate := d,
             ultimateDisponible := if (p.umbralUltimate : ℚ) ≤ d then true else p.ultimateDisponible }

/-- `Personaje.usarUltimate()`: when available, reset the charge and the flag
and return the ultimate's damage; otherwise return 0 and change nothing. -/
def usarUltimate (p : Personaje) : ℚ × Personaje :=
  if p.ultimateDisponible then
    (getAtaqueUltimate p, { p with danoUltimate := 0, ultimateDisponible := false })
  else (0, p)

/-- One iteration of the threshold growth of `subirNivel`:
`t ↦ Math.round(t * 1.1)`. -/
def iterUmbral (t : ℤ) : ℤ := jsRound ((t : ℚ) * (11/10))

/-- The move the 1v1 loop draws for a turn when the attacker's ultimate is not
available.  The JavaScript code draws `Math.random()` twice: with probability
0.4 a critical hit amplifying either the basic or the special attack (equal
chance), with probability 0.3 the special attack, otherwise the basic attack.
The random source is abstracted as an oracle `ℕ → Jugada`. -/
inductive Jugada where
  | criticoBasico
  | criticoEspecial
  | especial
  | basico
deriving DecidableEq

/-- The raw (pre-mitigation) damage of the drawn move. -/
def danioJugada (a : Personaje) : Jugada → ℚ
  | .criticoBasico => getAtaqueCritico a (getAtaqueBasico a)
  | .criticoEspecial => getAtaqueCritico a (getAtaqueEspecial a)
  | .especial => getAtaqueEspecial a
  | .basico => getAtaqueBasico a

/-- One turn of the 1v1 loop, returning the updated (attacker, defender) pair:
if the attacker's ultimate is available it is used unconditionally (damage
bypasses the shield); otherwise the drawn move's damage is applied through the
shield.  In both cases `defensor.recibirDanio(ataque)` is followed by
`atacante.cargarUltimate(ataque)` with the raw attack value. -/
def turno (a d : Personaje) (j : Jugada) : Personaje × Personaje :=
  if a.ultimateDisponible then
    (cargarUltimate (usarUltimate a).2 (usarUltimate a).1,
     recibirDanio d (usarUltimate a).1 true)
  else
    (cargarUltimate a (danioJugada a j), recibirDanio d (danioJugada a j) false)

/-- The `while (sim1.vida > 0 && sim2.vida > 0)` loop of `POST /fights`, with
explicit fuel (`none` meaning the fuel ran out, which theorem C4 shows cannot
happen with fuel 108 for level-valid combatants).  Even turn indices let the
first combatant attack. -/
def pelea (js : ℕ → Jugada) : ℕ → ℕ → Personaje → Personaje → Option (Personaje × Personaje)
  | 0, _, _, _ => none
  | fuel + 1, t, s1, s2 =>
    if 0 < s1.vida ∧ 0 < s2.vida then
      if t % 2 = 0 then
        pelea js fuel (t + 1) (turno s1 s2 (js t)).1 (turno s1 s2 (js t)).2
      else
        pelea js fuel (t + 1) (turno s2 s1 (js t)).2 (turno s2 s1 (js t)).1
    else some (s1, s2)

/-- The per-character write-back loop after a 1v1 fight: copy the simulation
copy's nivel, experiencia, escudo, vida, danoUltimate, umbralUltimate and
ultimateDisponible onto the persisted record. -/
def escribirCampos (p sim : Personaje) : Personaje :=
  { p with nivel := sim.nivel, experiencia := sim.experiencia, escudo := sim.escudo,
           vida := sim.vida, danoUltimate := sim.danoUltimate,
           umbralUltimate := sim.umbralUltimate, ultimateDisponible := sim.ultimateDisponible }

/-- The body of `for (let p of [personaje1, personaje2])` in `POST /fights`:
pick the simulation copy with the matching id, grant 40 experience if `p` is
the winner and 25 otherwise, then write the resulting fields back onto `p`. -/
def actualizarTrasPelea (ganadorId : ℕ) (f1 f2 : Personaje) (p : Personaje) : Personaje :=
  let sim := if p.id = f1.id then f1 else f2
  let sim' := if ganadorId = p.id then ganarExperiencia sim 40 else ganarExperiencia sim 25
  escribirCampos p sim'

/-- A `{nombre, vida}` health-snapshot element of a team-battle history row. -/
structure VidaNombre where
  nombre : String
  vida : ℚ
deriving DecidableEq

/-- One entry of a team battle's `historial` (the `mensaje` string, a template
over the other fields, is omitted). -/
structure RondaEntry where
  ronda : ℕ
  atacante : String
  defensor : String
  tipoGolpe : String
  danio : ℤ
  vidasHeroes : List VidaNombre
  vidasVillanos : List VidaNombre
  vidaDefensor : ℚ
deriving DecidableEq

/-- An externally supplied scripted round: attacker side and move type, both
arbitrary strings to model the unvalidated request payload. -/
structure Round where
  atacante : String
  tipoGolpe : String
deriving DecidableEq

/-- The mutable state of the scripted round loop. -/
structure EstadoEquipos where
  vivosHeroes : List Personaje
  vivosVillanos : List Personaje
  historial : List RondaEntry
  rondaNum : ℕ
  peleaFinalizada : Bool
deriving DecidableEq

/-- A stored team-fight record (`fightRepository`). -/
structure PeleaGuardada where
  fightId : ℕ
  equipoHeroes : List String
  equipoVillanos : List String
  resultado : String
  historial : List RondaEntry
deriving DecidableEq

/-- The `daño` assigned to a validated move type: basico −5, especial −30,
critico −45 (the default case is unreachable behind the validation). -/
def danioGolpe : String → ℤ
  | "basico" => -5
  | "especial" => -30
  | "critico" => -45
  | _ => 0

/-- Snapshot projection `p => ({ nombre: p.nombre, vida: p.vida })`. -/
def aVidaNombre (p : Personaje) : VidaNombre := ⟨p.nombre, p.vida⟩

/-- The `for (const round of rondas)` loop shared by `POST /fights/teams/start`
and `POST /fights/teams/continue`: break once a team is empty; reject an
unrecognized move type, else an unrecognized attacker side, reporting the
current round number; otherwise apply the fixed damage to the front defender,
record the history entry (snapshots taken after the hit, before elimination)
and drop the front defender when its health is ≤ 0. -/
def procesarRondas : List Round → EstadoEquipos → Except String EstadoEquipos
  | [], st => .ok st
  | r :: rs, st =>
    match st.vivosHeroes, st.vivosVillanos with
    | [], _ => .ok { st with peleaFinalizada := true }
    | _ :: _, [] => .ok { st with peleaFinalizada := true }
    | h :: hs, v :: vs =>
      if ¬(r.tipoGolpe = "basico" ∨ r.tipoGolpe = "especial" ∨ r.tipoGolpe = "critico") then
        .error ("Tipo de golpe inválido en ronda " ++ toString st.rondaNum)
      else if r.atacante = "heroe" then
        let d := danioGolpe r.tipoGolpe
        let v' := { v with vida := v.vida + (d : ℚ) }
        let entry : RondaEntry :=
          ⟨st.rondaNum, h.nombre, v.nombre, r.tipoGolpe, d,
           (h :: hs).map aVidaNombre, (v' :: vs).map aVidaNombre, v'.vida⟩
        let villanos' := if v'.vida ≤ 0 then vs else v' :: vs
        procesarRondas rs { st with vivosVillanos := villanos',
                                    historial := st.historial ++ [entry],
                                    rondaNum := st.rondaNum + 1 }
      else if r.atacante = "villano" then
        let d := danioGolpe r.tipoGolpe
        let h' := { h with vida := h.vida + (d : ℚ) }
        let entry : RondaEntry :=
          ⟨st.rondaNum, v.nombre, h.nombre, r.tipoGolpe, d,
           (h' :: hs).map aVidaNombre, (v :: vs).map aVidaNombre, h'.vida⟩
        let heroes' := if h'.vida ≤ 0 then hs else h' :: hs
        procesarRondas rs { st with vivosHeroes := heroes',
                                    historial := st.historial ++ [entry],
                                    rondaNum := st.rondaNum + 1 }
      else
        .error ("Atacante inválido en ronda " ++ toString st.rondaNum)

/-- The JSON body answered by `POST /fights`: the winner's name and the two
simulation copies as serialized after the experience grants. -/
structure Salida1v1 where
  ganador : String
  personaje1 : Personaje
  personaje2 : Personaje
deriving DecidableEq

/-- The JSON body answered by `POST /fights/teams/start` and
`.../continue`: the result string and the surviving rosters (the echoed
`rondas` field is omitted). -/
structure SalidaEquipos where
  resultado : String
  heroes : List Personaje
  villanos : List Personaje
deriving DecidableEq

/-- `Except.isOk`. -/
def esOk : Except String α → Bool
  | .ok _ => true
  | .error _ => false

/-- `Except.toOption`. -/
def exceptOk? : Except String α → Option α
  | .ok a => some a
  | .error _ => none

/-- The error message of a failed request, if any. -/
def exceptError? : Except String α → Option String
  | .ok _ => none
  | .error e => some e

/-- `POST /fights` (the simulated 1v1 handler, fightController.js lines
104-217).  Inputs: the character store, the fight store, the two ids, the move
oracle and the loop fuel.  Output `none` models a simulation that did not end
within the fuel; otherwise the response together with the character store and
the fight store as they are persisted when the handler returns.  The handler
reads `fightRepository` nowhere, so the fight store passes through unchanged
in every branch. -/
def postFights (personajes : List Personaje) (fights : List PeleaGuardada)
    (id1 id2 : ℕ) (js : ℕ → Jugada) (fuel : ℕ) :
    Option ((Except String Salida1v1) × List Personaje × List PeleaGuardada) :=
  match personajes.find? (fun p => p.id = id1), personajes.find? (fun p => p.id = id2) with
  | some personaje1, some personaje2 =>
    if personaje1.tipo = personaje2.tipo then
      some (.error "Solo se permiten peleas entre un superhéroe y un villano", personajes, fights)
    else
      let sim1 : Personaje := { personaje1 with vida := 100 + ((personaje1.nivel : ℚ) - 1) * 5 }
      let sim2 : Personaje := { personaje2 with vida := 100 + ((personaje2.nivel : ℚ) - 1) * 5 }
      match pelea js fuel 0 sim1 sim2 with
      | none => none
      | some (f1, f2) =>
        let ganador := if 0 < f1.vida then f1 else f2
        let p1' := actualizarTrasPelea ganador.id f1 f2 personaje1
        let p2' := actualizarTrasPelea ganador.id f1 f2 personaje2
        let personajes' :=
          (personajes.set (personajes.findIdx (fun p => p.id = id1)) p1').set
            (personajes.findIdx (fun p => p.id = id2)) p2'
        some (.ok ⟨ganador.nombre,
                   (if ganador.id = personaje1.id then ganarExperiencia f1 40
                    else ganarExperiencia f1 25),
                   (if ganador.id = personaje2.id then ganarExperiencia f2 40
                    else ganarExperiencia f2 25)⟩,
              personajes', fights)
  | _, _ => some (.error "Ambos personajes deben existir", personajes, fights)

/-- `Math.max(...fights.map(f => f.fightId)) + 1`, or 1 for an empty store. -/
def nuevoFightId (fights : List PeleaGuardada) : ℕ :=
  match fights with
  | [] => 1
  | _ => (fights.map (fun f => f.fightId)).foldl max 0 + 1

/-- The post-loop result string of the team-battle handlers. -/
def resultadoEquipos (st : EstadoEquipos) : String :=
  if 0 < st.vivosHeroes.length ∧ st.vivosVillanos.length = 0 then "¡Ganan los superhéroes!"
  else if 0 < st.vivosVillanos.length ∧ st.vivosHeroes.length = 0 then "¡Ganan los villanos!"
  else "Pelea inconclusa"

/-- Whether the post-loop code regards the fight as finished (the loop's break
flag, or either result branch having fired). -/
def peleaTermino (st : EstadoEquipos) : Bool :=
  st.peleaFinalizada ||
    decide (0 < st.vivosHeroes.length ∧ st.vivosVillanos.length = 0) ||
    decide (0 < st.vivosVillanos.length ∧ st.vivosHeroes.length = 0)

/-- The reset-after-battle write: every participating character's persisted
health is restored to 100 when the fight finished. -/
def restablecerVidas (finalizada : Bool) (heroes villanos personajes : List Personaje) :
    List Personaje :=
  if finalizada then
    personajes.map (fun p =>
      if heroes.any (fun h => h.id = p.id) ∨ villanos.any (fun v => v.id = p.id) then
        { p with vida := 100 }
      else p)
  else personajes

/-- `POST /fights/teams/start` (fightController.js lines 304-418): select the
two rosters, require exactly 3 of the right kind on each side, run the
scripted loop from fresh 100-health front lines, then append a new fight
record and reset participants' persisted health if the fight finished.  On a
loop error the handler returns before any store is written. -/
def iniciarPelea (personajes : List Personaje) (fights : List PeleaGuardada)
    (equipoHeroes equipoVillanos : String) (rondas : List Round) :
    (Except String SalidaEquipos) × List PeleaGuardada × List Personaje :=
  let heroes := (personajes.filter
    (fun p => p.equipo = some equipoHeroes ∧ p.tipo = "superheroe")).take 3
  let villanos := (personajes.filter
    (fun p => p.equipo = some equipoVillanos ∧ p.tipo = "villano")).take 3
  if ¬(heroes.length = 3 ∧ villanos.length = 3) then
    (.error "Ambos equipos deben tener exactamente 3 miembros del tipo correcto",
     fights, personajes)
  else
    match procesarRondas rondas
        ⟨heroes.map (fun p => { p with vida := 100 }),
         villanos.map (fun p => { p with vida := 100 }), [], 1, false⟩ with
    | .error m => (.error m, fights, personajes)
    | .ok st =>
      let resultado := resultadoEquipos st
      let fight : PeleaGuardada :=
        ⟨nuevoFightId fights, heroes.map (fun h => h.nombre),
         villanos.map (fun v => v.nombre), resultado, st.historial⟩
      (.ok ⟨resultado, st.vivosHeroes, st.vivosVillanos⟩,
       fights ++ [fight],
       restablecerVidas (peleaTermino st) heroes villanos personajes)

/-- The front-line reconstruction of `POST /fights/teams/continue`: every
roster member re-enters with the health recorded for its name in the last
stored round's snapshot, defaulting to 100 when the name is absent (eliminated
in an earlier round) or when there is no history. -/
def reconstruirVivos (roster : List Personaje) (snap : Option (List VidaNombre)) :
    List Personaje :=
  roster.map (fun h =>
    { h with vida := (((snap.bind (fun l => l.find? (fun x => x.nombre = h.nombre))).map
        (fun x => x.vida)).getD 100) })

/-- `POST /fights/teams/continue` (fightController.js lines 501-618): select
rosters, require 3+3, look the fight up, rebuild the front lines from the last
stored snapshot, resume numbering at `numeroRonda || historial.length + 1`,
run the loop on the copied history, and store the updated record (plus the
health reset when finished).  On a loop error nothing is written. -/
def continuarPelea (personajes : List Personaje) (fights : List PeleaGuardada)
    (fightId : ℕ) (equipoHeroes equipoVillanos : String) (rondas : List Round)
    (numeroRonda : Option ℕ) :
    (Except String SalidaEquipos) × List PeleaGuardada × List Personaje :=
  let heroes := (personajes.filter
    (fun p => p.equipo = some equipoHeroes ∧ p.tipo = "superheroe")).take 3
  let villanos := (personajes.filter
    (fun p => p.equipo = some equipoVillanos ∧ p.tipo = "villano")).take 3
  if ¬(heroes.length = 3 ∧ villanos.length = 3) then
    (.error "Ambos equipos deben tener exactamente 3 miembros del tipo correcto",
     fights, personajes)
  else
    match fights.find? (fun f => f.fightId = fightId) with
    | none => (.error "fightId no encontrado", fights, personajes)
    | some fight =>
      let historial := fight.historial
      let last := historial.getLast?
      let vivosHeroes := reconstruirVivos heroes (last.map (fun e => e.vidasHeroes))
      let vivosVillanos := reconstruirVivos villanos (last.map (fun e => e.vidasVillanos))
      let rondaNum := match numeroRonda with
        | some n => if n = 0 then historial.length + 1 else n
        | none => historial.length + 1
      match procesarRondas rondas ⟨vivosHeroes, vivosVillanos, historial, rondaNum, false⟩ with
      | .error m => (.error m, fights, personajes)
      | .ok st =>
        let resultado := resultadoEquipos st
        let fight' := { fight with historial := st.historial, resultado := resultado }
        (.ok ⟨resultado, st.vivosHeroes, st.vivosVillanos⟩,
         fights.map (fun f => if f.fightId = fightId then fight' else f),
         restablecerVidas (peleaTermino st) heroes villanos personajes)

/-- The appended history entries of a request are numbered consecutively from
`n`. -/
def numeradasDesde : ℕ → List RondaEntry → Prop
  | _, [] => True
  | n, e :: es => e.ronda = n ∧ numeradasDesde (n + 1) es

/-- `numeradasDesde` is decidable. -/
def decNumeradasDesde : (n : ℕ) → (l : List RondaEntry) → Decidable (numeradasDesde n l)
  | _, [] => isTrue trivial
  | n, e :: es =>
    match decNumeradasDesde (n + 1) es with
    | isTrue h =>
      if he : e.ronda = n then isTrue ⟨he, h⟩ else isFalse (fun c => he c.1)
    | isFalse h => isFalse (fun c => h c.2)

instance (n : ℕ) (l : List RondaEntry) : Decidable (numeradasDesde n l) :=
  decNumeradasDesde n l

/-- Validity of a combatant as prepared by the handlers: level in [1,10],
shield derived from the level, non-negative health. -/
def PersonajeValido (p : Personaje) : Prop :=
  1 ≤ p.nivel ∧ p.nivel ≤ 10 ∧ p.escudo = ((p.nivel : ℚ) - 1) * 5 ∧ 0 ≤ p.vida

instance (p : Personaje) : Decidable (PersonajeValido p) := by
  unfold PersonajeValido; infer_instance

/-- Concrete level-1 hero used in witnesses. -/
def pHeroe1 : Personaje := personajeNuevo 1 "Heroe1" "CiudadX" "superheroe" none

/-- Concrete level-1 villain used in witnesses. -/
def pVillano2 : Personaje := personajeNuevo 2 "Villano2" "CiudadY" "villano" none

/-- A second hero, for the same-kind matchup witness. -/
def pHeroe3 : Personaje := personajeNuevo 3 "Heroe3" "CiudadZ" "superheroe" none

/-- A concrete hero of team "A". -/
def hA (i : ℕ) (nom : String) : Personaje := personajeNuevo i nom "C" "superheroe" (some "A")

/-- A concrete villain of team "B". -/
def vB (i : ℕ) (nom : String) : Personaje := personajeNuevo i nom "C" "villano" (some "B")

/-- Six characters forming teams "A" (heroes) and "B" (villains). -/
def equipos6 : List Personaje :=
  [hA 11 "A1", hA 12 "A2", hA 13 "A3", vB 21 "B1", vB 22 "B2", vB 23 "B3"]

/-- A scripted round: the hero side hits with a critical. -/
def rHeroeCritico : Round := ⟨"heroe", "critico"⟩

/-- A scripted round: the villain side hits with a critical. -/
def rVillanoCritico : Round := ⟨"villano", "critico"⟩

/-- A scripted round: the villain side hits with a basic attack. -/
def rVillanoBasico : Round := ⟨"villano", "basico"⟩

/-- A scripted round with an unrecognized move type. -/
def rInvalida : Round := ⟨"heroe", "mega"⟩

/-- The fresh scripted-mode state on teams "A" and "B". -/
def stEquipos0 : EstadoEquipos :=
  ⟨[hA 11 "A1", hA 12 "A2", hA 13 "A3"], [vB 21 "B1", vB 22 "B2", vB 23 "B3"], [], 1, false⟩

/-- A one-round stored team fight built by the start handler. -/
def fights0 : List PeleaGuardada := (iniciarPelea equipos6 [] "A" "B" [rHeroeCritico]).2.1

/-- The fight stored in `fights0`. -/
def fight0 : PeleaGuardada := fights0.headD ⟨0, [], [], "", []⟩

/-- A stored team fight whose history eliminates heroes A1 (round 3) and A2
(round 6): six villain criticals against the hero front line. -/
def fights10 : List PeleaGuardada :=
  (iniciarPelea equipos6 [] "A" "B"
    [rVillanoCritico, rVillanoCritico, rVillanoCritico,
     rVillanoCritico, rVillanoCritico, rVillanoCritico]).2.1

/-- A shielded combatant used in the `recibirDanio` witness. -/
def pEscudo20 : Personaje := { pVillano2 with escudo := 20, vida := 50 }

/-- A level-10 character used in the experience-cap witness. -/
def pNivel10 : Personaje := { pHeroe1 with nivel := 10 }

/-- In `recibirDanio` the `if (vida < 0) vida = 0` clamp is `max · 0`. -/
theorem recibirDanio_vida (p : Personaje) (d : ℚ) (u : Bool) :
    (recibirDanio p d u).vida = max (p.vida - danioEfectivo p d u) 0 := by
  unfold recibirDanio
  rcases lt_or_le (p.vida - danioEfectivo p d u) 0 with h | h
  · simp only [if_pos h]
    exact (max_eq_right h.le).symm
  · simp only [if_neg (not_lt.mpr h)]
    exact (max_eq_left h).symm

/-- `subirNivel` increments the level below the cap. -/
theorem subirNivel_nivel (p : Personaje) (h : p.nivel < 10) :
    (subirNivel p).nivel = p.nivel + 1 := by
  unfold subirNivel
  rw [if_pos h]

/-- `subirNivel` scales the threshold below the cap. -/
theorem subirNivel_umbral (p : Personaje) (h : p.nivel < 10) :
    (subirNivel p).umbralUltimate = iterUmbral p.umbralUltimate := by
  unfold subirNivel iterUmbral
  rw [if_pos h]

/-- The experience loop conserves `remainder + 100 * (levels gained)`. -/
theorem expLoopAux_conserva : ∀ (n : ℕ) (p : Personaje) (t : ℤ),
    (expLoopAux n p t).2 + 100 * (((expLoopAux n p t).1.nivel : ℤ) - (p.nivel : ℤ)) = t := by
  intro n
  induction n with
  | zero => intro p t; simp [expLoopAux]
  | succ n ih =>
    intro p t
    simp only [expLoopAux]
    split
    · next h =>
      have hn := subirNivel_nivel p h.2
      have h2 := ih (subirNivel p) (t - 100)
      rw [hn] at h2
      push_cast at h2 ⊢
      linarith
    · simp

/-- The experience loop never lowers the level. -/
theorem expLoopAux_nivel_ge : ∀ (n : ℕ) (p : Personaje) (t : ℤ),
    p.nivel ≤ (expLoopAux n p t).1.nivel := by
  intro n
  induction n with
  | zero => intro p t; simp [expLoopAux]
  | succ n ih =>
    intro p t
    simp only [expLoopAux]
    split
    · next h =>
      have := ih (subirNivel p) (t - 100)
      rw [subirNivel_nivel p h.2] at this
      omega
    · simp

/-- The experience loop never exceeds level 10. -/
theorem expLoopAux_nivel_le : ∀ (n : ℕ) (p : Personaje) (t : ℤ), p.nivel ≤ 10 →
    (expLoopAux n p t).1.nivel ≤ 10 := by
  intro n
  induction n with
  | zero => intro p t h; simpa [expLoopAux] using h
  | succ n ih =>
    intro p t h
    simp only [expLoopAux]
    split
    · next hg =>
      exact ih (subirNivel p) (t - 100) (by rw [subirNivel_nivel p hg.2]; omega)
    · simpa using h

/-- With fuel at least `10 - nivel` the loop only stops because its guard
fails. -/
theorem expLoopAux_guardFalse : ∀ (n : ℕ) (p : Personaje) (t : ℤ), 10 ≤ p.nivel + n →
    ¬(100 ≤ (expLoopAux n p t).2 ∧ (expLoopAux n p t).1.nivel < 10) := by
  intro n
  induction n with
  | zero => intro p t h; simp only [expLoopAux]; omega
  | succ n ih =>
    intro p t h
    simp only [expLoopAux]
    split
    · next hg =>
      exact ih (subirNivel p) (t - 100) (by rw [subirNivel_nivel p hg.2]; omega)
    · next hg => simpa using hg

/-- The loop keeps the running experience non-negative. -/
theorem expLoopAux_nonneg : ∀ (n : ℕ) (p : Personaje) (t : ℤ), 0 ≤ t →
    0 ≤ (expLoopAux n p t).2 := by
  intro n
  induction n with
  | zero => intro p t h; simpa [expLoopAux] using h
  | succ n ih =>
    intro p t h
    simp only [expLoopAux]
    split
    · next hg => exact ih (subirNivel p) (t - 100) (by omega)
    · simpa using h

/-- Claim C2: for damage `d ≥ 0`, `recibirDanio d false` with a positive
shield `s` subtracts `d * (1 - s/100)` from health, `recibirDanio d true`
subtracts the full `d` regardless of the shield, and in all cases the
resulting health is the clamped-at-0 value, never negative. -/
theorem recibirDanio_spec (p : Personaje) (d : ℚ) (hd : 0 ≤ d) :
    (0 < p.escudo → (recibirDanio p d false).vida = max (p.vida - d * (1 - p.escudo / 100)) 0) ∧
    (recibirDanio p d true).vida = max (p.vida - d) 0 ∧
    (∀ u : Bool, 0 ≤ (recibirDanio p d u).vida) := by
  refine ⟨fun he => ?_, ?_, fun u => ?_⟩
  · rw [recibirDanio_vida]
    unfold danioEfectivo
    rw [if_pos ⟨rfl, he⟩]
    have h : p.vida - (d - d * (p.escudo / 100)) = p.vida - d * (1 - p.escudo / 100) := by ring
    rw [h]
  · rw [recibirDanio_vida]
    unfold danioEfectivo
    rw [if_neg (by simp)]
  · rw [recibirDanio_vida]
    exact le_max_right _ _

/-- Witness for C2 at a concrete shielded character and damage 10. -/
theorem recibirDanio_spec_witness :
    (0 : ℚ) ≤ 10 ∧ 0 < pEscudo20.escudo ∧
    (recibirDanio pEscudo20 10 false).vida = max (pEscudo20.vida - 10 * (1 - pEscudo20.escudo / 100)) 0 ∧
    (recibirDanio pEscudo20 10 true).vida = max (pEscudo20.vida - 10) 0 ∧
    0 ≤ (recibirDanio pEscudo20 10 false).vida :=
  ⟨by decide, by decide,
   (recibirDanio_spec pEscudo20 10 (by decide)).1 (by decide),
   (recibirDanio_spec pEscudo20 10 (by decide)).2.1,
   (recibirDanio_spec pEscudo20 10 (by decide)).2.2 false⟩

/-- Claim C3: `ganarExperiencia` pins experience at 100 at level ≥ 10;
otherwise it adds the amount, performs one level-up per full 100 while the
level stays below 10 (conserving `experience + 100 * levels gained`, ending
below 100 when the cap was not reached, at 100 when it was), and a level-1
character granted 250 experience ends at level 3 with experience 50. -/
theorem ganarExperiencia_spec :
    (∀ (p : Personaje) (c : ℤ), 10 ≤ p.nivel →
      ganarExperiencia p c = { p with experiencia := 100 }) ∧
    (∀ (p : Personaje) (c : ℤ), p.nivel < 10 →
      p.nivel ≤ (ganarExperiencia p c).nivel ∧ (ganarExperiencia p c).nivel ≤ 10 ∧
      ((ganarExperiencia p c).nivel < 10 →
        (ganarExperiencia p c).experiencia
          = p.experiencia + c - 100 * (((ganarExperiencia p c).nivel : ℤ) - (p.nivel : ℤ)) ∧
        (ganarExperiencia p c).experiencia < 100 ∧
        (0 ≤ p.experiencia + c → 0 ≤ (ganarExperiencia p c).experiencia)) ∧
      ((ganarExperiencia p c).nivel = 10 → (ganarExperiencia p c).experiencia = 100)) ∧
    ((ganarExperiencia pHeroe1 250).nivel = 3 ∧ (ganarExperiencia pHeroe1 250).experiencia = 50) := by
  refine ⟨fun p c h => ?_, fun p c h => ?_, by decide, by decide⟩
  · unfold ganarExperiencia
    rw [if_pos h]
  · have hnotcap : ¬ 10 ≤ p.nivel := not_le.mpr h
    have hnivel : (ganarExperiencia p c).nivel
        = (expLoopAux (10 - p.nivel) p (p.experiencia + c)).1.nivel := by
      unfold ganarExperiencia
      rw [if_neg hnotcap]
    have hfuel : 10 ≤ p.nivel + (10 - p.nivel) := by omega
    refine ⟨?_, ?_, fun hlt => ?_, fun hcap => ?_⟩
    · rw [hnivel]; exact expLoopAux_nivel_ge _ p _
    · rw [hnivel]; exact expLoopAux_nivel_le _ p _ (by omega)
    · rw [hnivel] at hlt
      have hexp : (ganarExperiencia p c).experiencia
          = (expLoopAux (10 - p.nivel) p (p.experiencia + c)).2 := by
        unfold ganarExperiencia
        rw [if_neg hnotcap]
        simp only [if_pos hlt]
      have hcons := expLoopAux_conserva (10 - p.nivel) p (p.experiencia + c)
      have hguard := expLoopAux_guardFalse (10 - p.nivel) p (p.experiencia + c) hfuel
      refine ⟨by rw [hexp, hnivel]; linarith, ?_, fun hpos => ?_⟩
      · rw [hexp]
        by_contra hge
        exact hguard ⟨by omega, hlt⟩
      · rw [hexp]
        exact expLoopAux_nonneg _ p _ hpos
    · rw [hnivel] at hcap
      unfold ganarExperiencia
      rw [if_neg hnotcap]
      simp only [if_neg (by omega : ¬ (expLoopAux (10 - p.nivel) p (p.experiencia + c)).1.nivel < 10)]

/-- Witness for C3 at a level-10 character (cap) and the level-1 scenario. -/
theorem ganarExperiencia_spec_witness :
    10 ≤ pNivel10.nivel ∧ ganarExperiencia pNivel10 7 = { pNivel10 with experiencia := 100 } ∧
    pHeroe1.nivel < 10 ∧ pHeroe1.nivel ≤ (ganarExperiencia pHeroe1 250).nivel ∧
    (ganarExperiencia pHeroe1 250).nivel ≤ 10 :=
  ⟨by decide, ganarExperiencia_spec.1 pNivel10 7 (by decide), by decide,
   (ganarExperiencia_spec.2.1 pHeroe1 250 (by decide)).1,
   (ganarExperiencia_spec.2.1 pHeroe1 250 (by decide)).2.1⟩

/-- Below the cap, `k` applications of `subirNivel` raise the level by `k` and
apply `iterUmbral` `k` times to the threshold. -/
theorem subirNivel_iter : ∀ (k : ℕ) (p : Personaje), p.nivel + k ≤ 10 →
    (subirNivel^[k] p).nivel = p.nivel + k ∧
    (subirNivel^[k] p).umbralUltimate = iterUmbral^[k] p.umbralUltimate := by
  intro k
  induction k with
  | zero => intro p _; simp
  | succ k ih =>
    intro p hk
    have hlt : p.nivel < 10 := by omega
    have h1 := subirNivel_nivel p hlt
    have h2 := subirNivel_umbral p hlt
    obtain ⟨ha, hb⟩ := ih (subirNivel p) (by omega)
    rw [Function.iterate_succ_apply, Function.iterate_succ_apply]
    exact ⟨by rw [ha, h1]; omega, by rw [hb, h2]⟩

/-- One threshold-growth step never decreases a non-negative threshold. -/
theorem le_iterUmbral (u : ℤ) (h : 0 ≤ u) : u ≤ iterUmbral u := by
  unfold iterUmbral jsRound
  rw [Int.le_floor]
  have hq : (0 : ℚ) ≤ (u : ℚ) := by exact_mod_cast h
  linarith

/-- `subirNivel` never decreases a non-negative threshold. -/
theorem subirNivel_umbral_mono (p : Personaje) (h : 0 ≤ p.umbralUltimate) :
    p.umbralUltimate ≤ (subirNivel p).umbralUltimate := by
  by_cases hn : p.nivel < 10
  · rw [subirNivel_umbral p hn]
    exact le_iterUmbral _ h
  · unfold subirNivel
    rw [if_neg hn]

/-- Iterated `subirNivel` keeps the threshold non-negative. -/
theorem subirNivel_iter_umbral_nonneg : ∀ (n : ℕ) (p : Personaje), 0 ≤ p.umbralUltimate →
    0 ≤ (subirNivel^[n] p).umbralUltimate := by
  intro n
  induction n with
  | zero => intro p h; simpa using h
  | succ n ih =>
    intro p h
    rw [Function.iterate_succ_apply]
    exact ih (subirNivel p) (le_trans h (subirNivel_umbral_mono p h))

/-- Claim C5: from threshold 150 at level 1, `k ≤ 9` level-ups leave the
threshold at `k` iterated applications of `t ↦ round(t * 1.1)`; the threshold
is non-decreasing across every sequence of level-ups; and the iterated value
differs from the analytically compounded `round(150 * 1.1^k)` (at `k = 7`). -/
theorem umbralUltimate_spec :
    (∀ (p : Personaje), p.nivel = 1 → p.umbralUltimate = 150 →
      ∀ k : ℕ, k ≤ 9 → (subirNivel^[k] p).umbralUltimate = iterUmbral^[k] 150) ∧
    (∀ (p : Personaje) (n : ℕ), 0 ≤ p.umbralUltimate →
      (subirNivel^[n] p).umbralUltimate ≤ (subirNivel^[n + 1] p).umbralUltimate) ∧
    iterUmbral^[7] 150 ≠ jsRound ((150 : ℚ) * (11/10)^7) := by
  refine ⟨fun p h1 h150 k hk => ?_, fun p n h => ?_, by decide⟩
  · have := (subirNivel_iter k p (by omega)).2
    rw [h150] at this
    exact this
  · rw [Function.iterate_succ_apply']
    exact subirNivel_umbral_mono _ (subirNivel_iter_umbral_nonneg n p h)

/-- Witness for C5 at the concrete level-1 hero, nine level-ups. -/
theorem umbralUltimate_spec_witness :
    pHeroe1.nivel = 1 ∧ pHeroe1.umbralUltimate = 150 ∧ (9 : ℕ) ≤ 9 ∧
    (subirNivel^[9] pHeroe1).umbralUltimate = iterUmbral^[9] 150 ∧
    0 ≤ pHeroe1.umbralUltimate ∧
    (subirNivel^[0] pHeroe1).umbralUltimate ≤ (subirNivel^[0 + 1] pHeroe1).umbralUltimate :=
  ⟨by decide, by decide, by decide,
   umbralUltimate_spec.1 pHeroe1 (by decide) (by decide) 9 (by decide),
   by decide,
   umbralUltimate_spec.2.1 pHeroe1 0 (by decide)⟩

/-- `cargarUltimate` leaves health, level and shield unchanged. -/
theorem cargarUltimate_campos (p : Personaje) (m : ℚ) :
    (cargarUltimate p m).vida = p.vida ∧ (cargarUltimate p m).nivel = p.nivel ∧
    (cargarUltimate p m).escudo = p.escudo := by
  unfold cargarUltimate
  split
  · exact ⟨rfl, rfl, rfl⟩
  · exact ⟨rfl, rfl, rfl⟩

/-- `usarUltimate` leaves health, level and shield unchanged. -/
theorem usarUltimate_campos (p : Personaje) :
    (usarUltimate p).2.vida = p.vida ∧ (usarUltimate p).2.nivel = p.nivel ∧
    (usarUltimate p).2.escudo = p.escudo := by
  unfold usarUltimate
  split
  · exact ⟨rfl, rfl, rfl⟩
  · exact ⟨rfl, rfl, rfl⟩

/-- When available, `usarUltimate` returns the ultimate's damage. -/
theorem usarUltimate_danio (p : Personaje) (h : p.ultimateDisponible = true) :
    (usarUltimate p).1 = getAtaqueUltimate p := by
  unfold usarUltimate
  rw [if_pos h]

/-- `Math.round` is within 1/2 below its argument's upper neighbourhood. -/
theorem jsRound_gt (x : ℚ) : x - 1/2 < (jsRound x : ℚ) := by
  unfold jsRound
  have h := Int.sub_one_lt_floor (x + 1/2)
  push_cast at h ⊢
  linarith

/-- Every drawn move deals raw damage at least 5 (level ≥ 1). -/
theorem danioJugada_ge (a : Personaje) (j : Jugada) (h : 1 ≤ a.nivel) :
    5 ≤ danioJugada a j := by
  have hn : (1 : ℚ) ≤ (a.nivel : ℚ) := by exact_mod_cast h
  have hb : (5 : ℚ) ≤ getAtaqueBasico a := by unfold getAtaqueBasico; linarith
  have he : (30 : ℚ) ≤ getAtaqueEspecial a := by unfold getAtaqueEspecial; linarith
  cases j with
  | basico => exact hb
  | especial => unfold danioJugada; linarith
  | criticoBasico =>
    show 5 ≤ getAtaqueCritico a (getAtaqueBasico a)
    unfold getAtaqueCritico
    have := jsRound_gt (getAtaqueBasico a * (3/2))
    linarith
  | criticoEspecial =>
    show 5 ≤ getAtaqueCritico a (getAtaqueEspecial a)
    unfold getAtaqueCritico
    have := jsRound_gt (getAtaqueEspecial a * (3/2))
    linarith

/-- The ultimate deals at least 80 raw damage (level ≥ 1). -/
theorem getAtaqueUltimate_ge (p : Personaje) (h : 1 ≤ p.nivel) :
    80 ≤ getAtaqueUltimate p := by
  have hn : (1 : ℚ) ≤ (p.nivel : ℚ) := by exact_mod_cast h
  unfold getAtaqueUltimate
  linarith

/-- A level-valid combatant's shield lies in [0, 45]. -/
theorem valido_escudo_bounds (p : Personaje) (h : PersonajeValido p) :
    0 ≤ p.escudo ∧ p.escudo ≤ 45 := by
  obtain ⟨h1, h2, h3, _⟩ := h
  have ha : (1 : ℚ) ≤ (p.nivel : ℚ) := by exact_mod_cast h1
  have hb : ((p.nivel : ℚ)) ≤ 10 := by exact_mod_cast h2
  constructor <;> rw [h3] <;> linarith

/-- Post-mitigation damage is at least 11/4 whenever the raw damage is ≥ 5 and
the shield is at most 45. -/
theorem danioEfectivo_ge (p : Personaje) (m : ℚ) (u : Bool)
    (hm : 5 ≤ m) (hesc : p.escudo ≤ 45) : 11/4 ≤ danioEfectivo p m u := by
  unfold danioEfectivo
  split
  · have hprod : m * p.escudo ≤ m * 45 :=
      mul_le_mul_of_nonneg_left hesc (by linarith)
    linarith
  · linarith

/-- The attacker's health, level and shield survive its own turn. -/
theorem turno_atacante (a d : Personaje) (j : Jugada) :
    (turno a d j).1.vida = a.vida ∧ (turno a d j).1.nivel = a.nivel ∧
    (turno a d j).1.escudo = a.escudo := by
  unfold turno
  split
  · have hc := cargarUltimate_campos (usarUltimate a).2 (usarUltimate a).1
    have hu := usarUltimate_campos a
    exact ⟨hc.1.trans hu.1, hc.2.1.trans hu.2.1, hc.2.2.trans hu.2.2⟩
  · exact cargarUltimate_campos a (danioJugada a j)

/-- After a turn, the defender keeps its level and shield; its health stays
non-negative and either hits the floor 0 or drops by at least 11/4. -/
theorem turno_defensor (a d : Personaje) (j : Jugada)
    (ha : PersonajeValido a) (hd : PersonajeValido d) :
    (turno a d j).2.nivel = d.nivel ∧ (turno a d j).2.escudo = d.escudo ∧
    0 ≤ (turno a d j).2.vida ∧
    ((turno a d j).2.vida = 0 ∨ (turno a d j).2.vida ≤ d.vida - 11/4) := by
  have hesc := valido_escudo_bounds d hd
  unfold turno
  split
  · next hult =>
    have hm : 5 ≤ (usarUltimate a).1 := by
      rw [usarUltimate_danio a hult]
      have := getAtaqueUltimate_ge a ha.1
      linarith
    have heff : 11/4 ≤ danioEfectivo d (usarUltimate a).1 true :=
      danioEfectivo_ge d _ true hm hesc.2
    refine ⟨rfl, rfl, ?_, ?_⟩
    · rw [recibirDanio_vida]; exact le_max_right _ _
    · rw [recibirDanio_vida]
      rcases le_or_lt (d.vida - danioEfectivo d (usarUltimate a).1 true) 0 with h | h
      · exact Or.inl (max_eq_right h)
      · exact Or.inr (by rw [max_eq_left h.le]; linarith)
  · have hm : 5 ≤ danioJugada a j := danioJugada_ge a j ha.1
    have heff : 11/4 ≤ danioEfectivo d (danioJugada a j) false :=
      danioEfectivo_ge d _ false hm hesc.2
    refine ⟨rfl, rfl, ?_, ?_⟩
    · rw [recibirDanio_vida]; exact le_max_right _ _
    · rw [recibirDanio_vida]
      rcases le_or_lt (d.vida - danioEfectivo d (danioJugada a j) false) 0 with h | h
      · exact Or.inl (max_eq_right h)
      · exact Or.inr (by rw [max_eq_left h.le]; linarith)

/-- A turn preserves level-validity of both combatants. -/
theorem turno_valido (a d : Personaje) (j : Jugada)
    (ha : PersonajeValido a) (hd : PersonajeValido d) :
    PersonajeValido (turno a d j).1 ∧ PersonajeValido (turno a d j).2 := by
  obtain ⟨hv, hn, he⟩ := turno_atacante a d j
  obtain ⟨hn2, he2, hv2, _⟩ := turno_defensor a d j ha hd
  constructor
  · exact ⟨by rw [hn]; exact ha.1, by rw [hn]; exact ha.2.1,
           by rw [he, hn]; exact ha.2.2.1, by rw [hv]; exact ha.2.2.2⟩
  · exact ⟨by rw [hn2]; exact hd.1, by rw [hn2]; exact hd.2.1,
           by rw [he2, hn2]; exact hd.2.2.1, hv2⟩

/-- Once either side's health is non-positive, the loop exits immediately. -/
theorem pelea_exit (js : ℕ → Jugada) (f t : ℕ) (a b : Personaje)
    (h : ¬(0 < a.vida ∧ 0 < b.vida)) : pelea js (f + 1) t a b = some (a, b) := by
  simp only [pelea]
  rw [if_neg h]

/-- Fuel `f` with `4 * (total health) + 22 ≤ 11 * f` suffices for the 1v1 loop
to terminate: every executed turn either floors the defender at 0 (the loop
exits on the next check) or removes at least 11/4 total health. -/
theorem pelea_isSome : ∀ (fuel : ℕ) (js : ℕ → Jugada) (t : ℕ) (s1 s2 : Personaje),
    PersonajeValido s1 → PersonajeValido s2 →
    4 * (s1.vida + s2.vida) + 22 ≤ 11 * (fuel : ℚ) →
    (pelea js fuel t s1 s2).isSome = true := by
  intro fuel
  induction fuel with
  | zero =>
    intro js t s1 s2 h1 h2 hb
    exfalso
    have hv1 := h1.2.2.2
    have hv2 := h2.2.2.2
    norm_num at hb
    linarith
  | succ f ih =>
    intro js t s1 s2 h1 h2 hb
    by_cases hc : 0 < s1.vida ∧ 0 < s2.vida
    · have hbq : 4 * (s1.vida + s2.vida) + 22 ≤ 11 * ((f : ℚ) + 1) := by
        push_cast at hb
        linarith
      have hf2 : 2 ≤ f := by
        have h1q : (1 : ℚ) < (f : ℚ) := by nlinarith [hc.1, hc.2]
        have : 1 < f := by exact_mod_cast h1q
        omega
      simp only [pelea, if_pos hc]
      split
      · obtain ⟨hval1, hval2⟩ := turno_valido s1 s2 (js t) h1 h2
        obtain ⟨hav, _, _⟩ := turno_atacante s1 s2 (js t)
        obtain ⟨_, _, hdnn, hdor⟩ := turno_defensor s1 s2 (js t) h1 h2
        rcases hdor with h0 | hdec
        · obtain ⟨f', rfl⟩ : ∃ f', f = f' + 1 := ⟨f - 1, by omega⟩
          rw [pelea_exit js f' (t + 1) _ _ (by rw [h0]; simp)]
          rfl
        · exact ih js (t + 1) _ _ hval1 hval2 (by rw [hav]; linarith)
      · obtain ⟨hval1, hval2⟩ := turno_valido s2 s1 (js t) h2 h1
        obtain ⟨hav, _, _⟩ := turno_atacante s2 s1 (js t)
        obtain ⟨_, _, hdnn, hdor⟩ := turno_defensor s2 s1 (js t) h2 h1
        rcases hdor with h0 | hdec
        · obtain ⟨f', rfl⟩ : ∃ f', f = f' + 1 := ⟨f - 1, by omega⟩
          rw [pelea_exit js f' (t + 1) _ _ (by rw [h0]; simp)]
          rfl
        · exact ih js (t + 1) _ _ hval2 hval1 (by rw [hav]; linarith)
    · rw [pelea_exit js f t _ _ hc]
      rfl

/-- When the loop concludes, one side's health is exactly 0 (health never goes
negative and the loop only stops once some side's health is non-positive). -/
theorem pelea_result : ∀ (fuel : ℕ) (js : ℕ → Jugada) (t : ℕ) (s1 s2 a b : Personaje),
    PersonajeValido s1 → PersonajeValido s2 →
    pelea js fuel t s1 s2 = some (a, b) → a.vida = 0 ∨ b.vida = 0 := by
  intro fuel
  induction fuel with
  | zero =>
    intro js t s1 s2 a b _ _ h
    simp [pelea] at h
  | succ f ih =>
    intro js t s1 s2 a b h1 h2 h
    simp only [pelea] at h
    by_cases hc : 0 < s1.vida ∧ 0 < s2.vida
    · rw [if_pos hc] at h
      split at h
      · obtain ⟨hval1, hval2⟩ := turno_valido s1 s2 (js t) h1 h2
        exact ih js (t + 1) _ _ a b hval1 hval2 h
      · obtain ⟨hval1, hval2⟩ := turno_valido s2 s1 (js t) h2 h1
        exact ih js (t + 1) _ _ a b hval2 hval1 h
    · rw [if_neg hc] at h
      obtain ⟨rfl, rfl⟩ : s1 = a ∧ s2 = b := by
        have := Option.some.inj h
        exact ⟨congrArg Prod.fst this, congrArg Prod.snd this⟩
      rcases not_and_or.mp hc with hz | hz
      · exact Or.inl (le_antisymm (not_lt.mp hz) h1.2.2.2)
      · exact Or.inr (le_antisymm (not_lt.mp hz) h2.2.2.2)

/-- Claim C4: for combatants with level in [1,10], shield `(level-1)*5` and
the handler's initial health `100 + (level-1)*5`, the 1v1 loop terminates
within fuel 108 for every move oracle, ending with one side's health exactly
0; moreover every turn leaves the defender's health strictly smaller (the
post-mitigation damage is strictly positive) and floored at 0. -/
theorem pelea_terminacion :
    (∀ (s1 s2 : Personaje) (js : ℕ → Jugada),
      PersonajeValido s1 → PersonajeValido s2 →
      s1.vida = 100 + ((s1.nivel : ℚ) - 1) * 5 →
      s2.vida = 100 + ((s2.nivel : ℚ) - 1) * 5 →
      (pelea js 108 0 s1 s2).isSome = true ∧
      (∀ a b : Personaje, pelea js 108 0 s1 s2 = some (a, b) → a.vida = 0 ∨ b.vida = 0)) ∧
    (∀ (a d : Personaje) (j : Jugada), PersonajeValido a → PersonajeValido d →
      0 ≤ (turno a d j).2.vida ∧ (0 < d.vida → (turno a d j).2.vida < d.vida)) := by
  constructor
  · intro s1 s2 js h1 h2 hv1 hv2
    have hn1 : ((s1.nivel : ℚ)) ≤ 10 := by exact_mod_cast h1.2.1
    have hn2 : ((s2.nivel : ℚ)) ≤ 10 := by exact_mod_cast h2.2.1
    refine ⟨pelea_isSome 108 js 0 s1 s2 h1 h2 ?_, fun a b h => pelea_result 108 js 0 s1 s2 a b h1 h2 h⟩
    rw [hv1, hv2]
    norm_num
    linarith
  · intro a d j ha hd
    obtain ⟨_, _, hnn, hor⟩ := turno_defensor a d j ha hd
    refine ⟨hnn, fun hpos => ?_⟩
    rcases hor with h0 | hdec
    · rw [h0]; exact hpos
    · linarith

/-- Witness for C4 at the two concrete level-1 combatants and the all-basic
move oracle. -/
theorem pelea_terminacion_witness :
    PersonajeValido pHeroe1 ∧ PersonajeValido pVillano2 ∧
    pHeroe1.vida = 100 + ((pHeroe1.nivel : ℚ) - 1) * 5 ∧
    pVillano2.vida = 100 + ((pVillano2.nivel : ℚ) - 1) * 5 ∧
    (pelea (fun _ => Jugada.basico) 108 0 pHeroe1 pVillano2).isSome = true ∧
    0 ≤ (turno pHeroe1 pVillano2 Jugada.basico).2.vida ∧
    (turno pHeroe1 pVillano2 Jugada.basico).2.vida < pVillano2.vida :=
  ⟨by decide, by decide, by decide, by decide,
   (pelea_terminacion.1 pHeroe1 pVillano2 (fun _ => Jugada.basico)
     (by decide) (by decide) (by decide) (by decide)).1,
   (pelea_terminacion.2 pHeroe1 pVillano2 Jugada.basico (by decide) (by decide)).1,
   (pelea_terminacion.2 pHeroe1 pVillano2 Jugada.basico (by decide) (by decide)).2 (by decide)⟩

/-- Decidable equality of request outcomes. -/
instance [DecidableEq ε] [DecidableEq α] : DecidableEq (Except ε α)
  | .error a, .error b =>
    if h : a = b then isTrue (by rw [h]) else isFalse fun c => h (Except.error.inj c)
  | .error _, .ok _ => isFalse fun c => Except.noConfusion c
  | .ok _, .error _ => isFalse fun c => Except.noConfusion c
  | .ok a, .ok b =>
    if h : a = b then isTrue (by rw [h]) else isFalse fun c => h (Except.ok.inj c)

/-- Claim C6 (amended): a valid scripted round with the hero side attacking
subtracts the move's fixed amount (5/30/45) from the front villain's health —
with no shield or ultimate mechanics and no clamping of the recorded value —
appends the history entry, and removes the front villain when its health
drops to ≤ 0 (the next roster member becoming the front). -/
theorem procesarRondas_heroe (tipo : String) (h : Personaje) (hs : List Personaje)
    (v : Personaje) (vs : List Personaje) (hist : List RondaEntry) (n : ℕ) (fin : Bool)
    (ht : tipo = "basico" ∨ tipo = "especial" ∨ tipo = "critico") :
    procesarRondas [⟨"heroe", tipo⟩] ⟨h :: hs, v :: vs, hist, n, fin⟩ =
      .ok ⟨h :: hs,
           (if v.vida + (danioGolpe tipo : ℚ) ≤ 0 then vs
            else { v with vida := v.vida + (danioGolpe tipo : ℚ) } :: vs),
           hist ++ [⟨n, h.nombre, v.nombre, tipo, danioGolpe tipo,
                     (h :: hs).map aVidaNombre,
                     ({ v with vida := v.vida + (danioGolpe tipo : ℚ) } :: vs).map aVidaNombre,
                     v.vida + (danioGolpe tipo : ℚ)⟩],
           n + 1, fin⟩ := by
  rcases ht with rfl | rfl | rfl <;> rfl

/-- The villain-side counterpart of `procesarRondas_heroe`. -/
theorem procesarRondas_villano (tipo : String) (h : Personaje) (hs : List Personaje)
    (v : Personaje) (vs : List Personaje) (hist : List RondaEntry) (n : ℕ) (fin : Bool)
    (ht : tipo = "basico" ∨ tipo = "especial" ∨ tipo = "critico") :
    procesarRondas [⟨"villano", tipo⟩] ⟨h :: hs, v :: vs, hist, n, fin⟩ =
      .ok ⟨(if h.vida + (danioGolpe tipo : ℚ) ≤ 0 then hs
            else { h with vida := h.vida + (danioGolpe tipo : ℚ) } :: hs),
           v :: vs,
           hist ++ [⟨n, v.nombre, h.nombre, tipo, danioGolpe tipo,
                     ({ h with vida := h.vida + (danioGolpe tipo : ℚ) } :: hs).map aVidaNombre,
                     (v :: vs).map aVidaNombre,
                     h.vida + (danioGolpe tipo : ℚ)⟩],
           n + 1, fin⟩ := by
  rcases ht with rfl | rfl | rfl <;> rfl

/-- Claim C6: every valid scripted round subtracts the fixed per-move amount
(basico 5, especial 30, critico 45) from the front defender's health,
cumulatively and without shield/ultimate mechanics; a defender reaching ≤ 0
is removed from its team's queue (the next member becomes the front); and a
100-health front villain is eliminated by exactly 3 criticals, its recorded
health running 55, 10, −35 (two criticals do not eliminate it). -/
theorem rondasGuionadas_spec :
    (∀ (tipo : String) (h : Personaje) (hs : List Personaje) (v : Personaje)
       (vs : List Personaje) (hist : List RondaEntry) (n : ℕ) (fin : Bool),
      (tipo = "basico" ∨ tipo = "especial" ∨ tipo = "critico") →
      ∃ st', procesarRondas [⟨"heroe", tipo⟩] ⟨h :: hs, v :: vs, hist, n, fin⟩ = .ok st' ∧
        st'.vivosHeroes = h :: hs ∧
        st'.vivosVillanos = (if v.vida + (danioGolpe tipo : ℚ) ≤ 0 then vs
          else { v with vida := v.vida + (danioGolpe tipo : ℚ) } :: vs) ∧
        st'.historial = hist ++ [⟨n, h.nombre, v.nombre, tipo, danioGolpe tipo,
          (h :: hs).map aVidaNombre,
          ({ v with vida := v.vida + (danioGolpe tipo : ℚ) } :: vs).map aVidaNombre,
          v.vida + (danioGolpe tipo : ℚ)⟩] ∧
        st'.rondaNum = n + 1) ∧
    (danioGolpe "basico" = -5 ∧ danioGolpe "especial" = -30 ∧ danioGolpe "critico" = -45) ∧
    ((exceptOk? (procesarRondas [rHeroeCritico, rHeroeCritico, rHeroeCritico] stEquipos0)).map
      (fun st => (st.vivosVillanos.map (fun p => p.nombre),
                  st.historial.map (fun e => e.vidaDefensor)))
      = some (["B2", "B3"], [55, 10, -35])) ∧
    ((exceptOk? (procesarRondas [rHeroeCritico, rHeroeCritico] stEquipos0)).map
      (fun st => (st.vivosVillanos.head?.map (fun p => p.nombre)))
      = some (some "B1")) := by
  refine ⟨fun tipo h hs v vs hist n fin ht => ?_, by decide, by decide, by decide⟩
  exact ⟨_, procesarRondas_heroe tipo h hs v vs hist n fin ht, rfl, rfl, rfl, rfl⟩

/-- Witness for C6 at a concrete critical round. -/
theorem rondasGuionadas_spec_witness :
    ("critico" = "basico" ∨ "critico" = "especial" ∨ "critico" = "critico") ∧
    (∃ st', procesarRondas [⟨"heroe", "critico"⟩]
        ⟨[hA 11 "A1"], [vB 21 "B1"], [], 1, false⟩ = .ok st' ∧
      st'.vivosHeroes = [hA 11 "A1"] ∧
      st'.vivosVillanos = (if (vB 21 "B1").vida + (danioGolpe "critico" : ℚ) ≤ 0 then []
        else [{ vB 21 "B1" with vida := (vB 21 "B1").vida + (danioGolpe "critico" : ℚ) }]) ∧
      st'.historial = [] ++ [⟨1, (hA 11 "A1").nombre, (vB 21 "B1").nombre, "critico",
        danioGolpe "critico", [hA 11 "A1"].map aVidaNombre,
        [{ vB 21 "B1" with vida := (vB 21 "B1").vida + (danioGolpe "critico" : ℚ) }].map aVidaNombre,
        (vB 21 "B1").vida + (danioGolpe "critico" : ℚ)⟩] ∧
      st'.rondaNum = 1 + 1) :=
  ⟨by decide,
   rondasGuionadas_spec.1 "critico" (hA 11 "A1") [] (vB 21 "B1") [] [] 1 false (by decide)⟩

/-- Counterexample to C6 as stated: the third critical records health −35 for
the (eliminated) defender — the value is not clamped at 0. -/
theorem rondasGuionadas_sinClamp :
    ((exceptOk? (procesarRondas [rHeroeCritico, rHeroeCritico, rHeroeCritico] stEquipos0)).bind
      (fun st => st.historial.get? 2)).map (fun e => e.vidaDefensor) = some (-35) ∧
    ((-35 : ℚ) < 0) := by
  exact ⟨by decide, by decide⟩

/-- The scripted loop only appends to the history, and the appended entries
are numbered consecutively from the state's current round number. -/
theorem procesarRondas_append : ∀ (rs : List Round) (st st' : EstadoEquipos),
    procesarRondas rs st = .ok st' →
    ∃ app, st'.historial = st.historial ++ app ∧ numeradasDesde st.rondaNum app := by
  intro rs
  induction rs with
  | nil =>
    intro st st' H
    obtain rfl := Except.ok.inj H
    exact ⟨[], by simp, trivial⟩
  | cons r rs ih =>
    intro st st' H
    rcases hH : st.vivosHeroes with _ | ⟨h, hs⟩
    · simp only [procesarRondas, hH] at H
      obtain rfl := Except.ok.inj H
      exact ⟨[], by simp, trivial⟩
    · rcases hV : st.vivosVillanos with _ | ⟨v, vs⟩
      · simp only [procesarRondas, hH, hV] at H
        obtain rfl := Except.ok.inj H
        exact ⟨[], by simp, trivial⟩
      · simp only [procesarRondas, hH, hV] at H
        by_cases htipo : r.tipoGolpe = "basico" ∨ r.tipoGolpe = "especial" ∨ r.tipoGolpe = "critico"
        · rw [if_neg (not_not_intro htipo)] at H
          by_cases hatk : r.atacante = "heroe"
          · rw [if_pos hatk] at H
            obtain ⟨app, happ, hnum⟩ := ih _ _ H
            refine ⟨(⟨st.rondaNum, h.nombre, v.nombre, r.tipoGolpe, danioGolpe r.tipoGolpe,
                (h :: hs).map aVidaNombre,
                ({ v with vida := v.vida + (danioGolpe r.tipoGolpe : ℚ) } :: vs).map aVidaNombre,
                v.vida + (danioGolpe r.tipoGolpe : ℚ)⟩ : RondaEntry) :: app, ?_, ?_⟩
            · rw [happ]; simp
            · exact ⟨rfl, hnum⟩
          · rw [if_neg hatk] at H
            by_cases hatk2 : r.atacante = "villano"
            · rw [if_pos hatk2] at H
              obtain ⟨app, happ, hnum⟩ := ih _ _ H
              refine ⟨(⟨st.rondaNum, v.nombre, h.nombre, r.tipoGolpe, danioGolpe r.tipoGolpe,
                  ({ h with vida := h.vida + (danioGolpe r.tipoGolpe : ℚ) } :: hs).map aVidaNombre,
                  (v :: vs).map aVidaNombre,
                  h.vida + (danioGolpe r.tipoGolpe : ℚ)⟩ : RondaEntry) :: app, ?_, ?_⟩
              · rw [happ]; simp
              · exact ⟨rfl, hnum⟩
            · rw [if_neg hatk2] at H
              exact absurd H (by simp)
        · rw [if_pos htipo] at H
          exact absurd H (by simp)

/-- Updating the found record in place keeps it the record found under the
same id. -/
theorem find?_actualiza (l : List PeleaGuardada) (fid : ℕ) (f g : PeleaGuardada)
    (hg : g.fightId = fid)
    (h : l.find? (fun x => x.fightId = fid) = some f) :
    (l.map (fun x => if x.fightId = fid then g else x)).find?
      (fun x => x.fightId = fid) = some g := by
  induction l with
  | nil => simp at h
  | cons x xs ih =>
    by_cases hx : x.fightId = fid
    · simp only [List.map_cons, if_pos hx]
      exact List.find?_cons_of_pos _ (by simp [hg])
    · simp only [List.map_cons, if_neg hx]
      rw [List.find?_cons_of_neg _ (by simp [hx])]
      rw [List.find?_cons_of_neg _ (by simp [hx])] at h
      exact ih h

/-- Claim C7 (amended): in a continuation without an explicit `numeroRonda`,
the rounds appended to the stored history are numbered consecutively starting
at `stored history length + 1` — contiguous with a canonically numbered
store (rounds 1..n), where that equals the last stored round number + 1. -/
theorem continuacion_numeracion
    (ps : List Personaje) (fights : List PeleaGuardada) (fid : ℕ) (eH eV : String)
    (rs : List Round) (f : PeleaGuardada) (s : SalidaEquipos)
    (fights' : List PeleaGuardada) (ps' : List Personaje)
    (hf : fights.find? (fun g => g.fightId = fid) = some f)
    (H : continuarPelea ps fights fid eH eV rs none = (Except.ok s, fights', ps')) :
    ∃ app, (fights'.find? (fun g => g.fightId = fid)).map (fun g => g.historial)
        = some (f.historial ++ app) ∧
      numeradasDesde (f.historial.length + 1) app := by
  have hfid : f.fightId = fid := by
    have := List.find?_some hf
    simpa using this
  simp only [continuarPelea] at H
  split at H
  · simp at H
  · split at H
    · next heq => rw [heq] at hf; simp at hf
    · next fight heq =>
      obtain rfl : fight = f := by
        rw [heq] at hf
        exact Option.some.inj hf
      split at H
      · simp at H
      · next st heq2 =>
        injection H with HA HBC
        injection HBC with HB HC
        obtain ⟨app, happ, hnum⟩ := procesarRondas_append rs _ st heq2
        refine ⟨app, ?_, hnum⟩
        rw [← HB,
            find?_actualiza fights fid fight
              { fight with historial := st.historial, resultado := resultadoEquipos st }
              hfid hf]
        simpa using happ

/-- The outcome of a concrete two-round continuation of `fights0`. -/
def contW : (Except String SalidaEquipos) × List PeleaGuardada × List Personaje :=
  continuarPelea equipos6 fights0 1 "A" "B" [rVillanoBasico, rHeroeCritico] none

/-- The response of `contW`. -/
def sW : SalidaEquipos := (exceptOk? contW.1).getD ⟨"", [], []⟩

/-- The stored fights after `contW`. -/
def fightsW : List PeleaGuardada := contW.2.1

/-- The character store after `contW`. -/
def psW : List Personaje := contW.2.2

/-- Witness for C7 at a concrete two-round continuation. -/
theorem continuacion_numeracion_witness :
    fights0.find? (fun g => g.fightId = 1) = some fight0 ∧
    continuarPelea equipos6 fights0 1 "A" "B" [rVillanoBasico, rHeroeCritico] none
      = (Except.ok sW, fightsW, psW) ∧
    ∃ app, (fightsW.find? (fun g => g.fightId = 1)).map (fun g => g.historial)
        = some (fight0.historial ++ app) ∧
      numeradasDesde (fight0.historial.length + 1) app :=
  ⟨by decide, by decide,
   continuacion_numeracion equipos6 fights0 1 "A" "B" [rVillanoBasico, rHeroeCritico]
     fight0 sW fightsW psW (by decide) (by decide)⟩

/-- Counterexample to C7 as stated: with `numeroRonda = 5` supplied, the
round appended after stored round 1 is numbered 5, not 2. -/
theorem continuacion_numeracion_salto :
    ((continuarPelea equipos6 fights0 1 "A" "B" [rVillanoBasico] (some 5)).2.1.find?
      (fun g => g.fightId = 1)).map (fun f => f.historial.map (fun e => e.ronda))
      = some [1, 5] ∧ (1 + 1 : ℕ) ≠ 5 :=
  ⟨by decide, by decide⟩

/-- Claim C8 (amended): a scripted round with an unrecognized move type (or,
when the move type is valid, an unrecognized attacker side) aborts processing
at that round with an error naming the current round number, independently of
the remaining rounds; an aborted start request persists nothing — the fight
and character stores are returned unchanged (so the already-applied rounds'
effects are discarded, not left in place). -/
theorem abortoRondaInvalida_spec :
    (∀ (r : Round) (rs : List Round) (st : EstadoEquipos) (h : Personaje)
       (hs : List Personaje) (v : Personaje) (vs : List Personaje),
      st.vivosHeroes = h :: hs → st.vivosVillanos = v :: vs →
      ¬(r.tipoGolpe = "basico" ∨ r.tipoGolpe = "especial" ∨ r.tipoGolpe = "critico") →
      procesarRondas (r :: rs) st
        = .error ("Tipo de golpe inválido en ronda " ++ toString st.rondaNum)) ∧
    (∀ (r : Round) (rs : List Round) (st : EstadoEquipos) (h : Personaje)
       (hs : List Personaje) (v : Personaje) (vs : List Personaje),
      st.vivosHeroes = h :: hs → st.vivosVillanos = v :: vs →
      (r.tipoGolpe = "basico" ∨ r.tipoGolpe = "especial" ∨ r.tipoGolpe = "critico") →
      ¬(r.atacante = "heroe") → ¬(r.atacante = "villano") →
      procesarRondas (r :: rs) st
        = .error ("Atacante inválido en ronda " ++ toString st.rondaNum)) ∧
    (∀ (ps : List Personaje) (fights : List PeleaGuardada) (eH eV : String)
       (rs : List Round) (e : String) (fights' : List PeleaGuardada) (ps' : List Personaje),
      iniciarPelea ps fights eH eV rs = (Except.error e, fights', ps') →
      fights' = fights ∧ ps' = ps) ∧
    ((iniciarPelea equipos6 [] "A" "B" [rHeroeCritico]).2.1 ≠ []) := by
  refine ⟨?_, ?_, ?_, by decide⟩
  · intro r rs st h hs v vs hH hV hbad
    simp only [procesarRondas, hH, hV]
    rw [if_pos hbad]
  · intro r rs st h hs v vs hH hV hok hna hnv
    simp only [procesarRondas, hH, hV]
    rw [if_neg (not_not_intro hok), if_neg hna, if_neg hnv]
  · intro ps fights eH eV rs e fights' ps' H
    simp only [iniciarPelea] at H
    split at H
    · injection H with HA HBC
      injection HBC with HB HC
      exact ⟨HB.symm, HC.symm⟩
    · split at H
      · injection H with HA HBC
        injection HBC with HB HC
        exact ⟨HB.symm, HC.symm⟩
      · simp at H

/-- Witness for C8 at a concrete invalid round and an aborted start request. -/
theorem abortoRondaInvalida_spec_witness :
    stEquipos0.vivosHeroes = hA 11 "A1" :: [hA 12 "A2", hA 13 "A3"] ∧
    stEquipos0.vivosVillanos = vB 21 "B1" :: [vB 22 "B2", vB 23 "B3"] ∧
    ¬(rInvalida.tipoGolpe = "basico" ∨ rInvalida.tipoGolpe = "especial" ∨
      rInvalida.tipoGolpe = "critico") ∧
    procesarRondas [rInvalida] stEquipos0
      = .error ("Tipo de golpe inválido en ronda " ++ toString stEquipos0.rondaNum) ∧
    iniciarPelea equipos6 [] "A" "B" [rHeroeCritico, rInvalida]
      = (Except.error "Tipo de golpe inválido en ronda 2", [], equipos6) ∧
    ([] : List PeleaGuardada) = [] ∧ equipos6 = equipos6 :=
  ⟨by decide, by decide, by decide,
   abortoRondaInvalida_spec.1 rInvalida [] stEquipos0 (hA 11 "A1") [hA 12 "A2", hA 13 "A3"]
     (vB 21 "B1") [vB 22 "B2", vB 23 "B3"] (by decide) (by decide) (by decide),
   by decide,
   (abortoRondaInvalida_spec.2.2.1 equipos6 [] "A" "B" [rHeroeCritico, rInvalida]
     "Tipo de golpe inválido en ronda 2" [] equipos6 (by decide)).1,
   (abortoRondaInvalida_spec.2.2.1 equipos6 [] "A" "B" [rHeroeCritico, rInvalida]
     "Tipo de golpe inválido en ronda 2" [] equipos6 (by decide)).2⟩

/-- Counterexample to C8 as stated: aborting at invalid round 2 leaves the
fight store empty — round 1's applied damage is persisted nowhere (while the
same request without the invalid round does store a record). -/
theorem abortoRondaInvalida_sinPersistencia :
    iniciarPelea equipos6 [] "A" "B" [rHeroeCritico, rInvalida]
      = (Except.error "Tipo de golpe inválido en ronda 2", [], equipos6) ∧
    (iniciarPelea equipos6 [] "A" "B" [rHeroeCritico]).2.1.length = 1 :=
  ⟨by decide, by decide⟩

/-- Claim C9: a 1v1 fight request whose ids do not both resolve, or whose
participants share a kind, and a team request whose named teams do not have
exactly 3 members of the required kind, are rejected before any simulation
with the character and fight stores returned unchanged. -/
theorem rechazoInvalido_spec :
    (∀ (ps : List Personaje) (fights : List PeleaGuardada) (id1 id2 : ℕ)
       (js : ℕ → Jugada) (fuel : ℕ),
      ((ps.find? (fun p => p.id = id1)).isNone ∨ (ps.find? (fun p => p.id = id2)).isNone) →
      postFights ps fights id1 id2 js fuel
        = some (.error "Ambos personajes deben existir", ps, fights)) ∧
    (∀ (ps : List Personaje) (fights : List PeleaGuardada) (id1 id2 : ℕ)
       (js : ℕ → Jugada) (fuel : ℕ) (p1 p2 : Personaje),
      ps.find? (fun p => p.id = id1) = some p1 →
      ps.find? (fun p => p.id = id2) = some p2 → p1.tipo = p2.tipo →
      postFights ps fights id1 id2 js fuel
        = some (.error "Solo se permiten peleas entre un superhéroe y un villano", ps, fights)) ∧
    (∀ (ps : List Personaje) (fights : List PeleaGuardada) (eH eV : String) (rs : List Round),
      ¬(((ps.filter (fun p => p.equipo = some eH ∧ p.tipo = "superheroe")).take 3).length = 3 ∧
        ((ps.filter (fun p => p.equipo = some eV ∧ p.tipo = "villano")).take 3).length = 3) →
      iniciarPelea ps fights eH eV rs
        = (.error "Ambos equipos deben tener exactamente 3 miembros del tipo correcto",
           fights, ps)) := by
  refine ⟨?_, ?_, ?_⟩
  · intro ps fights id1 id2 js fuel h
    rcases h1 : ps.find? (fun p => p.id = id1) with _ | p1 <;>
      rcases h2 : ps.find? (fun p => p.id = id2) with _ | p2
    · simp only [postFights, h1, h2]
    · simp only [postFights, h1, h2]
    · simp only [postFights, h1, h2]
    · rw [h1, h2] at h
      simp at h
  · intro ps fights id1 id2 js fuel p1 p2 h1 h2 htipo
    simp only [postFights, h1, h2]
    rw [if_pos htipo]
  · intro ps fights eH eV rs hbad
    simp only [iniciarPelea]
    rw [if_pos hbad]

/-- Witness for C9 at concrete invalid requests. -/
theorem rechazoInvalido_spec_witness :
    (((List.find? (fun p => p.id = 1) ([] : List Personaje)).isNone ∨
      ((List.find? (fun p => p.id = 2) ([] : List Personaje)).isNone)) ∧
     postFights [] [] 1 2 (fun _ => Jugada.basico) 108
       = some (.error "Ambos personajes deben existir", [], [])) ∧
    ([pHeroe1, pHeroe3].find? (fun p => p.id = 1) = some pHeroe1 ∧
     [pHeroe1, pHeroe3].find? (fun p => p.id = 3) = some pHeroe3 ∧
     pHeroe1.tipo = pHeroe3.tipo ∧
     postFights [pHeroe1, pHeroe3] [] 1 3 (fun _ => Jugada.basico) 108
       = some (.error "Solo se permiten peleas entre un superhéroe y un villano",
               [pHeroe1, pHeroe3], [])) ∧
    (¬(((List.filter (fun p => p.equipo = some "A" ∧ p.tipo = "superheroe")
          ([] : List Personaje)).take 3).length = 3 ∧
       ((List.filter (fun p => p.equipo = some "B" ∧ p.tipo = "villano")
          ([] : List Personaje)).take 3).length = 3) ∧
     iniciarPelea [] [] "A" "B" []
       = (.error "Ambos equipos deben tener exactamente 3 miembros del tipo correcto",
          [], [])) :=
  ⟨⟨by decide, rechazoInvalido_spec.1 [] [] 1 2 (fun _ => Jugada.basico) 108 (by decide)⟩,
   ⟨by decide, by decide, by decide,
    rechazoInvalido_spec.2.1 [pHeroe1, pHeroe3] [] 1 3 (fun _ => Jugada.basico) 108
      pHeroe1 pHeroe3 (by decide) (by decide) (by decide)⟩,
   ⟨by decide, rechazoInvalido_spec.2.2 [] [] "A" "B" [] (by decide)⟩⟩

/-- Claim C1 (amended): on every return of the 1v1 handler the fight store is
passed through unchanged (no fight record is appended); after a concluded
simulation the winner's simulation copy is granted 40 experience and the
loser's 25 (40 > 25), the resulting fields being written back onto the
persisted records via `escribirCampos`. -/
theorem resolucion1v1_spec :
    (∀ (ps : List Personaje) (fights : List PeleaGuardada) (id1 id2 : ℕ)
       (js : ℕ → Jugada) (fuel : ℕ)
       (out : (Except String Salida1v1) × List Personaje × List PeleaGuardada),
      postFights ps fights id1 id2 js fuel = some out → out.2.2 = fights) ∧
    (∀ (p1 p2 f1 f2 : Personaje), f1.id = p1.id → f2.id = p2.id → p1.id ≠ p2.id →
      (actualizarTrasPelea p1.id f1 f2 p1 = escribirCampos p1 (ganarExperiencia f1 40) ∧
       actualizarTrasPelea p1.id f1 f2 p2 = escribirCampos p2 (ganarExperiencia f2 25)) ∧
      (actualizarTrasPelea p2.id f1 f2 p2 = escribirCampos p2 (ganarExperiencia f2 40) ∧
       actualizarTrasPelea p2.id f1 f2 p1 = escribirCampos p1 (ganarExperiencia f1 25))) ∧
    ((25 : ℤ) < 40) := by
  refine ⟨?_, ?_, by norm_num⟩
  · intro ps fights id1 id2 js fuel out H
    simp only [postFights] at H
    split at H
    · split at H
      · obtain rfl := Option.some.inj H
        rfl
      · split at H
        · exact absurd H (by simp)
        · obtain rfl := Option.some.inj H
          rfl
    · obtain rfl := Option.some.inj H
      rfl
  · intro p1 p2 f1 f2 hf1 hf2 hne
    refine ⟨⟨?_, ?_⟩, ⟨?_, ?_⟩⟩ <;>
      simp [actualizarTrasPelea, hf1, hne, Ne.symm hne]

/-- The outcome of the concrete all-basic 1v1 fight between `pHeroe1` and
`pVillano2`. -/
def outW : (Except String Salida1v1) × List Personaje × List PeleaGuardada :=
  (postFights [pHeroe1, pVillano2] [] 1 2 (fun _ => Jugada.basico) 108).getD
    (.error "", [], [])

/-- Witness for C1 at the concrete concluded fight. -/
theorem resolucion1v1_spec_witness :
    (postFights [pHeroe1, pVillano2] [] 1 2 (fun _ => Jugada.basico) 108 = some outW ∧
     outW.2.2 = []) ∧
    (pHeroe1.id = pHeroe1.id ∧ pVillano2.id = pVillano2.id ∧ pHeroe1.id ≠ pVillano2.id ∧
     actualizarTrasPelea pHeroe1.id pHeroe1 pVillano2 pHeroe1
       = escribirCampos pHeroe1 (ganarExperiencia pHeroe1 40) ∧
     actualizarTrasPelea pHeroe1.id pHeroe1 pVillano2 pVillano2
       = escribirCampos pVillano2 (ganarExperiencia pVillano2 25)) :=
  ⟨⟨by decide,
    resolucion1v1_spec.1 [pHeroe1, pVillano2] [] 1 2 (fun _ => Jugada.basico) 108 outW
      (by decide)⟩,
   ⟨rfl, rfl, by decide,
    (resolucion1v1_spec.2.1 pHeroe1 pVillano2 pHeroe1 pVillano2 rfl rfl (by decide)).1.1,
    (resolucion1v1_spec.2.1 pHeroe1 pVillano2 pHeroe1 pVillano2 rfl rfl (by decide)).1.2⟩⟩

/-- Counterexample to C1 as stated: a concluded 1v1 simulation answers `ok`
while the fight store stays empty — no fight record is appended. -/
theorem resolucion1v1_sinRegistro :
    (postFights [pHeroe1, pVillano2] [] 1 2 (fun _ => Jugada.basico) 108).map
      (fun out => (esOk out.1, out.2.2)) = some (true, ([] : List PeleaGuardada)) := by
  decide

/-- The reconstructed roster has exactly the full team's length. -/
theorem reconstruirVivos_length (roster : List Personaje) (snap : Option (List VidaNombre)) :
    (reconstruirVivos roster snap).length = roster.length := by
  simp [reconstruirVivos]

/-- Claim C10 (amended): a continuation reconstructs all roster members
regardless of recorded eliminations: each re-enters at its roster position
with the health its name has in the last stored snapshot — in particular a
member with non-positive snapshot health re-enters carrying it, and is the
front only when it is the roster's first member — while members absent from
the snapshot re-enter with health 100; with no rounds to play, a successful
continuation answers full 3-member rosters. -/
theorem reconstruccion_spec :
    (∀ (roster : List Personaje) (snap : Option (List VidaNombre)),
      (reconstruirVivos roster snap).length = roster.length) ∧
    (∀ (h : Personaje) (rest : List Personaje) (snap : Option (List VidaNombre)) (x : VidaNombre),
      snap.bind (fun l => l.find? (fun e => e.nombre = h.nombre)) = some x →
      (reconstruirVivos (h :: rest) snap).head? = some { h with vida := x.vida }) ∧
    (∀ (h : Personaje) (rest : List Personaje) (snap : Option (List VidaNombre)),
      snap.bind (fun l => l.find? (fun e => e.nombre = h.nombre)) = none →
      (reconstruirVivos (h :: rest) snap).head? = some { h with vida := 100 }) ∧
    (∀ (ps : List Personaje) (fights : List PeleaGuardada) (fid : ℕ) (eH eV : String)
       (s : SalidaEquipos) (fights' : List PeleaGuardada) (ps' : List Personaje),
      continuarPelea ps fights fid eH eV [] none = (Except.ok s, fights', ps') →
      s.heroes.length = 3 ∧ s.villanos.length = 3) := by
  refine ⟨reconstruirVivos_length, ?_, ?_, ?_⟩
  · intro h rest snap x hx
    simp only [reconstruirVivos, List.map_cons, List.head?_cons]
    rw [hx]
    simp
  · intro h rest snap hx
    simp only [reconstruirVivos, List.map_cons, List.head?_cons]
    rw [hx]
    simp
  · intro ps fights fid eH eV s fights' ps' H
    simp only [continuarPelea] at H
    split at H
    · simp at H
    · next hrost =>
      split at H
      · simp at H
      · simp only [procesarRondas] at H
        injection H with HA HBC
        obtain rfl := Except.ok.inj HA
        have h3 := not_not.mp hrost
        constructor
        · show (reconstruirVivos _ _).length = 3
          rw [reconstruirVivos_length]
          exact h3.1
        · show (reconstruirVivos _ _).length = 3
          rw [reconstruirVivos_length]
          exact h3.2

/-- The outcome of a no-round continuation of `fights0`. -/
def contC10 : (Except String SalidaEquipos) × List PeleaGuardada × List Personaje :=
  continuarPelea equipos6 fights0 1 "A" "B" [] none

/-- The response of `contC10`. -/
def sC10 : SalidaEquipos := (exceptOk? contC10.1).getD ⟨"", [], []⟩

/-- Witness for C10 at a concrete snapshot and the no-round continuation. -/
theorem reconstruccion_spec_witness :
    (reconstruirVivos [hA 11 "A1"] (some [⟨"A1", -35⟩])).length = [hA 11 "A1"].length ∧
    ((some [(⟨"A1", -35⟩ : VidaNombre)]).bind
      (fun l => l.find? (fun e => e.nombre = (hA 11 "A1").nombre))
      = some (⟨"A1", -35⟩ : VidaNombre)) ∧
    (reconstruirVivos [hA 11 "A1"] (some [⟨"A1", -35⟩])).head?
      = some { hA 11 "A1" with vida := (⟨"A1", (-35 : ℚ)⟩ : VidaNombre).vida } ∧
    continuarPelea equipos6 fights0 1 "A" "B" [] none = (Except.ok sC10, contC10.2.1, contC10.2.2) ∧
    sC10.heroes.length = 3 ∧ sC10.villanos.length = 3 :=
  ⟨reconstruccion_spec.1 [hA 11 "A1"] (some [⟨"A1", -35⟩]),
   by decide,
   reconstruccion_spec.2.1 (hA 11 "A1") [] (some [⟨"A1", -35⟩]) ⟨"A1", -35⟩ (by decide),
   by decide,
   (reconstruccion_spec.2.2.2 equipos6 fights0 1 "A" "B" sC10 contC10.2.1 contC10.2.2
     (by decide)).1,
   (reconstruccion_spec.2.2.2 equipos6 fights0 1 "A" "B" sC10 contC10.2.1 contC10.2.2
     (by decide)).2⟩

/-- Counterexample to C10 as stated: continuing `fights10` (heroes A1 and A2
both eliminated, A2 in the last stored round), the member with non-positive
snapshot health ("A2", −35) re-enters at roster position 1, while the front
is "A1" — restored to 100 and hit down to 95 — not the ≤ 0 member. -/
theorem reconstruccion_frente :
    ((exceptOk? (continuarPelea equipos6 fights10 1 "A" "B" [rVillanoBasico] none).1).map
      (fun s => s.heroes.map (fun p => (p.nombre, p.vida))))
      = some [("A1", (95 : ℚ)), ("A2", -35), ("A3", 100)] ∧
    ("A1" : String) ≠ "A2" :=
  ⟨by decide, by decide⟩
